import Mathlib

/-
Verification of the transport layer of the couchdb (kivik CouchDB driver)
repository: the changes-feed streaming iterator (changes.go), the attachment
operations (attachments.go), and the chttp authentication / error
classification layer.  Go source is embedded shallowly: Go structs become Lean
structures, Go methods become Lean functions, Go errors become Except values,
and a Go nil-pointer dereference is made explicit as a GoPanic value.
Components of the repository whose implementation files are not available
(the chttp client, the iter driver, small helpers) are modelled from the
specification, and each such definition says so in its doc comment.
-/

set_option autoImplicit false

namespace Couch

/-- A JSON value, used for decoded response bodies and stream tokens. -/
inductive JSON where
  | null
  | bool (b : Bool)
  | num (n : Int)
  | str (s : String)
  | arr (elems : List JSON)
  | obj (fields : List (String × JSON))

/-- The error taxonomy of the specification (§7): kinds produced by the
error classifier and the authentication layer. -/
inductive ErrorKind where
  | network
  | unauthorized
  | notFound
  | badRequest
  | badResponse
  | serverError
  | conflict
  | internalError
  | other
deriving DecidableEq

/-- An error of the chttp / authentication layer: a classified kind plus a
human-readable message. -/
structure KErr where
  kind : ErrorKind
  message : String
deriving DecidableEq

/-- A kivik.Error as constructed by the Go source in the couchdb package:
an HTTP status (0 when the Go error carries no kivik status, i.e. was a plain
error value) and a message. -/
structure KivikError where
  httpStatus : Nat
  message : String
deriving DecidableEq

/-- Modelled from the spec: the UnmarshalJSON of sequenceID is not under
src/; per the wire contract a CouchDB sequence id is a string (CouchDB 2.x)
or a number (CouchDB 1.x), carried as its string form.  Any other JSON shape
is a plain decode error. -/
def decodeSequenceID : JSON → Except KivikError String
  | .str s => .ok s
  | .num n => .ok (toString n)
  | _ => .error ⟨0, "json: cannot unmarshal value into sequenceID"⟩

/-- Decoding of the int64 pending counter (dec.Decode into an int64 field):
only a JSON number is accepted. -/
def decodePending : JSON → Except KivikError Int
  | .num n => .ok n
  | _ => .error ⟨0, "json: cannot unmarshal value into int64"⟩

/-- changesMeta from changes.go: the metadata accumulated outside the item
array of the bounded changes stream. -/
structure changesMeta where
  lastSeq : String := ""
  pending : Int := 0
deriving DecidableEq

/-- changesMeta.parseMeta from changes.go: dispatch on the metadata key,
decoding last_seq and pending into the accumulator and rejecting any other
key with a bad-gateway (HTTP 502) kivik error. -/
def changesMeta.parseMeta (m : changesMeta) (key : String) (dec : JSON) :
    Except KivikError changesMeta :=
  match key with
  | "last_seq" => (decodeSequenceID dec).map fun s => { m with lastSeq := s }
  | "pending" => (decodePending dec).map fun p => { m with pending := p }
  | _ => .error ⟨502, "Unexpected key: " ++ key⟩

/-- Modelled from the spec: the bounded-shape scan of the iter driver
(iter.go is not under src/).  The top-level object is a list of key/value
entries; the entry whose key is the caller-specified item key contributes the
items, and every other key is handed to changesMeta.parseMeta, whether it
appears before or after the item array. -/
def runBounded (itemKey : String) :
    List (String × JSON) → changesMeta → Except KivikError (List JSON × changesMeta)
  | [], m => .ok ([], m)
  | (k, v) :: rest, m =>
    if k = itemKey then
      match v with
      | .arr xs =>
        match runBounded itemKey rest m with
        | .ok (ys, m2) => .ok (xs ++ ys, m2)
        | .error e => .error e
      | _ => .error ⟨0, "expected array value for item key"⟩
    else
      match m.parseMeta k v with
      | .ok m2 => runBounded itemKey rest m2
      | .error e => .error e

/-- The raw response body handed to the iterator, as an abstract stream of
bytes/lines; its content is irrelevant to the claims settled here. -/
abbrev RawBody := List String

/-- Modelled from the spec: the iter structure (iter.go is not under src/),
restricted to the fields the claims need: the metadata accumulator handed to
newIter, the caller-specified item key (empty string selects the unbounded
shape), and the open body. -/
structure iter where
  meta : Option changesMeta
  expectedKey : String
  body : RawBody

/-- Modelled from the spec: newIter (iter.go is not under src/) stores its
arguments in the iter structure. -/
def newIter (meta : Option changesMeta) (key : String) (r : RawBody) : iter :=
  ⟨meta, key, r⟩

/-- changesRows from changes.go: embeds a pointer to the iter and a pointer
to a changesMeta.  In Go both embedded fields are pointers, so the embedded
changesMeta may be nil, represented here as an Option. -/
structure changesRows where
  iter : iter
  changesMeta : Option changesMeta

/-- newChangesRows from changes.go.  The Go composite literal sets only the
iter field, leaving the embedded *changesMeta pointer at its zero value
(nil = none); the locally built meta pointer is passed to newIter only. -/
def newChangesRows (key : String) (r : RawBody) : changesRows :=
  let meta : Option changesMeta := if key != "" then some {} else none
  { iter := newIter meta key r, changesMeta := none }

/-- Outcome of a Go expression that may dereference a nil pointer. -/
inductive GoPanic where
  | nilPointerDereference
deriving DecidableEq

/-- changesRows.LastSeq from changes.go: reads r.lastSeq, which promotes
through the embedded *changesMeta pointer; when that pointer is nil the read
panics with a nil-pointer dereference. -/
def changesRows.LastSeq (r : changesRows) : Except GoPanic String :=
  match r.changesMeta with
  | none => .error .nilPointerDereference
  | some m => .ok m.lastSeq

/-- changesRows.Pending from changes.go: reads r.pending through the embedded
*changesMeta pointer, panicking when the pointer is nil. -/
def changesRows.Pending (r : changesRows) : Except GoPanic Int :=
  match r.changesMeta with
  | none => .error .nilPointerDereference
  | some m => .ok m.pending

/-- An HTTP request descriptor as built by the couchdb package: method, path
and query parameters. -/
structure Request where
  method : String
  path : String
  query : List (String × String)
deriving DecidableEq

/-- An HTTP response as seen by the changes operation: status code and raw
body stream. -/
structure StreamResponse where
  status : Nat
  body : RawBody

/-- Modelled from the spec: optionsToParams (util.go is not under src/)
translates the option map into query parameters; option values are modelled
as strings, for which the translation is one query value per key and cannot
fail. -/
def optionsToParams (opts : List (String × String)) :
    Except KivikError (List (String × String)) :=
  .ok opts

/-- Modelled from the spec: chttp ResponseError for the changes path
(chttp.go is not under src/): a status below 400 is not an error; a status of
400 or above is classified into a kivik error carrying that status. -/
def streamResponseError (resp : StreamResponse) : Except KivikError Unit :=
  if resp.status < 400 then .ok ()
  else .error ⟨resp.status, "HTTP error"⟩

/-- db.Changes from changes.go, with the network abstracted as a function
from the built request to a transport outcome.  The returned list records
every HTTP request the call issued.  Control flow follows the Go source: the
item key defaults to "results"; a feed option of eventsource returns a
bad-request kivik error before any request is issued; a feed option of
continuous clears the item key, selecting the unbounded shape; then the
options become query parameters, a GET to <db>/_changes is issued, dispatch
and status errors are returned, and otherwise newChangesRows wraps the
body. -/
def dbChanges (dbName : String) (opts : List (String × String))
    (server : Request → Except String StreamResponse) :
    List Request × Except KivikError changesRows :=
  let checked : Except KivikError String :=
    match opts.lookup "feed" with
    | some f =>
      if f = "eventsource" then
        .error ⟨400, "kivik: eventsource feed not supported, use \x27continuous\x27"⟩
      else if f = "continuous" then .ok ""
      else .ok "results"
    | none => .ok "results"
  match checked with
  | .error e => ([], .error e)
  | .ok key =>
    match optionsToParams opts with
    | .error e => ([], .error e)
    | .ok query =>
      let req : Request := ⟨"GET", dbName ++ "/_changes", query⟩
      match server req with
      | .error e => ([req], .error ⟨0, e⟩)
      | .ok resp =>
        match streamResponseError resp with
        | .error e => ([req], .error e)
        | .ok _ => ([req], .ok (newChangesRows key resp.body))

end Couch

namespace Chttp

open Couch (JSON ErrorKind KErr)

/-- A response outcome as classified by the error classifier: either a
transport failure with no HTTP exchange, or an HTTP response with its status
and a flag recording whether its JSON body was well formed. -/
inductive Outcome where
  | transportFailure (cause : String)
  | response (status : Nat) (bodyMalformed : Bool)

/-- Modelled from the spec: the status part of the error classifier
(chttp.go is not under src/), mapping an HTTP error status to a kind:
401 to unauthorized, 404 to not-found, 400 to bad-request, any 5xx to
server-error. -/
def classifyStatus (status : Nat) : ErrorKind :=
  if status = 401 then .unauthorized
  else if status = 404 then .notFound
  else if status = 400 then .badRequest
  else if 500 ≤ status ∧ status ≤ 599 then .serverError
  else .other

/-- Modelled from the spec: the error classifier (chttp.go is not under
src/).  A transport failure is a network error; a status below 400 is not an
error; for an error status the JSON error body is decoded best-effort, a
malformed body being itself reported as bad-response; otherwise the status is
mapped through the fixed table. -/
def classify : Outcome → Option ErrorKind
  | .transportFailure _ => some .network
  | .response status bodyMalformed =>
    if status < 400 then none
    else if bodyMalformed then some .badResponse
    else some (classifyStatus status)

/-- Whether an Except value is an error (the body failed to decode). -/
def isMalformed (b : Except String JSON) : Bool :=
  match b with
  | .error _ => true
  | .ok _ => false

/-- The response of the session login/probe exchange: HTTP status, the token
delivered by the AuthSession Set-Cookie header (if any), and the JSON body
(or the message of the JSON syntax error when malformed). -/
structure SessionResponse where
  status : Nat
  setCookieToken : Option String
  body : Except String JSON

/-- Field lookup in a decoded JSON object, as Go json decoding into a struct
does: a missing field or a non-object leaves the Go zero value. -/
def jsonField (j : JSON) (name : String) : Option JSON :=
  match j with
  | .obj fields => fields.lookup name
  | _ => none

/-- The userCtx.name of a session response body, with Go zero-value
semantics: any missing layer yields the empty string. -/
def userCtxName (j : JSON) : String :=
  match jsonField j "userCtx" with
  | some ctx =>
    match jsonField ctx "name" with
    | some (.str s) => s
    | _ => ""
  | none => ""

/-- Modelled from the spec: validation of the session auth response
(cookieauth.go / auth.go are not under src/).  The login exchange outcome is
classified first; a malformed body is a bad-response error; then the
server-asserted userCtx.name must equal the submitted username.  The message
of the mismatch error is pinned by the repository test
TestCookieAuthAuthenticate (mismatched-name case). -/
def validateAuthResponse (username : String) (resp : SessionResponse) :
    Except KErr String :=
  match classify (.response resp.status (isMalformed resp.body)) with
  | some k =>
    match resp.body with
    | .error msg => .error ⟨.badResponse, msg⟩
    | .ok _ => .error ⟨k, "HTTP error"⟩
  | none =>
    match resp.body with
    | .error msg => .error ⟨.badResponse, msg⟩
    | .ok j =>
      if userCtxName j ≠ username then
        .error ⟨.badResponse, "auth response for unexpected user"⟩
      else
        .ok (resp.setCookieToken.getD "")

/-- Modelled from the spec: CookieAuth.Authenticate (cookieauth.go is not
under src/): POST the credentials to the session endpoint, classify transport
failures as network errors, and validate the response; on success the
AuthSession cookie set by the exchange is the stored session token. -/
def cookieAuthenticate (username : String)
    (wire : Except String SessionResponse) : Except KErr (Option String) :=
  match wire with
  | .error cause => .error ⟨.network, cause⟩
  | .ok resp =>
    match validateAuthResponse username resp with
    | .error e => .error e
    | .ok _ => .ok resp.setCookieToken

/-- Modelled from the spec: BasicAuth.Authenticate (auth.go is not under
src/): GET the session endpoint with the credential header attached and
validate the response; mismatch of the server-asserted name is a
bad-response error whose message is pinned by the repository test
TestBasicAuthAuthenticate (wrong-user-name case). -/
def basicAuthenticate (username : String)
    (wire : Except String SessionResponse) : Except KErr Unit :=
  match wire with
  | .error cause => .error ⟨.network, cause⟩
  | .ok resp =>
    match classify (.response resp.status (isMalformed resp.body)) with
    | some k =>
      match resp.body with
      | .error msg => .error ⟨.badResponse, msg⟩
      | .ok _ => .error ⟨k, "HTTP error"⟩
    | none =>
      match resp.body with
      | .error msg => .error ⟨.badResponse, msg⟩
      | .ok j =>
        if userCtxName j ≠ username then
          .error ⟨.badResponse, "authentication failed"⟩
        else .ok ()

/-- The two credential strategies of the authentication layer: the
static-header (basic) strategy and the session-token (cookie) strategy. -/
inductive Strategy where
  | basic (username password : String)
  | cookie (username password : String)
deriving DecidableEq

/-- The per-connection authentication state: the installed strategy, if any,
and the cookie jar for the connection origin (cookie name to value). -/
structure ClientState where
  auther : Option Strategy
  jar : List (String × String)
deriving DecidableEq

/-- Modelled from the spec: running one Authenticate exchange of a strategy
(auth.go / cookieauth.go are not under src/); the result is the list of
cookies the exchange stores.  The static-header strategy probes the session
endpoint but stores no cookie; the session-token strategy stores the
AuthSession token delivered by the login response. -/
def runStrategy (s : Strategy) (wire : Except String SessionResponse) :
    Except KErr (List (String × String)) :=
  match s with
  | .basic u _ =>
    match basicAuthenticate u wire with
    | .error e => .error e
    | .ok _ => .ok []
  | .cookie u _ =>
    match cookieAuthenticate u wire with
    | .error e => .error e
    | .ok (some t) => .ok [("AuthSession", t)]
    | .ok none => .ok []

/-- Modelled from the spec: Client.Auth (chttp.go is not under src/).
Exactly one strategy may be active on a connection; authenticating while one
is already installed fails with a conflict error before the strategy runs,
leaving the connection state, including any stored token, untouched.  On a
fresh connection the strategy runs and on success is installed together with
the cookies it stored. -/
def clientAuth (st : ClientState) (s : Strategy)
    (wire : Except String SessionResponse) : Except KErr Unit × ClientState :=
  match st.auther with
  | some _ => (.error ⟨.conflict, "auth already set; log out first"⟩, st)
  | none =>
    match runStrategy s wire with
    | .error e => (.error e, st)
    | .ok cookies => (.ok (), ⟨some s, cookies ++ st.jar⟩)

/-- Modelled from the spec: Client.Logout (chttp.go is not under src/).
Logging out when no strategy is installed fails with an unauthorized error;
otherwise the strategy is removed and the stored session token cleared
unconditionally, without contacting the server. -/
def clientLogout (st : ClientState) : Except KErr Unit × ClientState :=
  match st.auther with
  | none => (.error ⟨.unauthorized, "not authenticated"⟩, st)
  | some _ =>
    (.ok (), ⟨none, st.jar.filter fun c => c.1 ≠ "AuthSession"⟩)

/-- The session-token strategy state read by the Cookie accessor: an
optional cookie store mapping origins to cookie lists, and the optional
connection origin (DSN). -/
structure CookieAuth where
  jar : Option (List (String × List (String × String)))
  dsn : Option String

/-- Modelled from the spec: CookieAuth.Cookie (cookieauth.go is not under
src/), a pure side read of the connection state: with no cookie store, no
origin, or no stored cookie named AuthSession for the connection origin it
returns none (found=false); otherwise the stored session cookie. -/
def CookieAuth.Cookie (a : CookieAuth) : Option (String × String) :=
  match a.jar, a.dsn with
  | none, _ => none
  | some _, none => none
  | some jar, some dsn =>
    match jar.lookup dsn with
    | none => none
    | some cookies =>
      match cookies.lookup "AuthSession" with
      | some v => some ("AuthSession", v)
      | none => none

/-- The spec's condition for the Cookie accessor to find a token: a cookie
store exists, an origin is set, and the store holds an entry for that origin
containing the fixed session cookie. -/
def hasStoredToken (a : CookieAuth) : Prop :=
  ∃ jar dsn cookies v, a.jar = some jar ∧ a.dsn = some dsn ∧
    jar.lookup dsn = some cookies ∧ cookies.lookup "AuthSession" = some v

end Chttp

namespace Couch

open Chttp (classifyStatus)

/-- An http.Header: a map from header names to value lists, with exact-key
(Go map index) lookup. -/
abbrev Header := List (String × List String)

/-- Exact-key map indexing of a header, as Go resp.Header[key]. -/
def headerIndex (h : Header) (key : String) : Option (List String) :=
  List.lookup key h

/-- The response seen by the attachment operations: status and headers; the
body is tracked separately as a fate. -/
structure AttResponse where
  status : Nat
  headers : Header

/-- getContentType from attachments.go: Header.Get of Content-Type (first
value, empty string when absent) plus presence via map indexing. -/
def getContentType (h : Header) : String × Bool :=
  match headerIndex h "Content-Type" with
  | some (v :: _) => (v, true)
  | some [] => ("", true)
  | none => ("", false)

/-- The standard base64 alphabet, as used by encoding/base64 StdEncoding. -/
def base64Alphabet : List Char :=
  "ABCDEFGHIJKLMNOPQRSTUVWXYZabcdefghijklmnopqrstuvwxyz0123456789+/".toList

/-- The alphabet position of a base64 digit. -/
def b64Val (c : Char) : Option Nat :=
  base64Alphabet.indexOf? c

/-- Standard base64 decoding of a group sequence: four digits give three
bytes, with = padding allowed only in the final group. -/
def b64DecodeGroups : List Char → Option (List Nat)
  | [] => some []
  | c1 :: c2 :: c3 :: c4 :: rest =>
    match b64Val c1, b64Val c2 with
    | some v1, some v2 =>
      if c3 = '=' then
        if c4 = '=' && rest.isEmpty then some [v1 * 4 + v2 / 16] else none
      else
        match b64Val c3 with
        | some v3 =>
          if c4 = '=' then
            if rest.isEmpty then
              some [v1 * 4 + v2 / 16, (v2 % 16) * 16 + v3 / 4]
            else none
          else
            match b64Val c4 with
            | some v4 =>
              match b64DecodeGroups rest with
              | some tl =>
                some ([v1 * 4 + v2 / 16, (v2 % 16) * 16 + v3 / 4,
                  (v3 % 4) * 64 + v4] ++ tl)
              | none => none
            | none => none
        | none => none
    | _, _ => none
  | _ => none

/-- base64.StdEncoding.DecodeString of the Go standard library: strict
standard decoding, failing on any character outside the alphabet or an
incomplete group. -/
def base64DecodeString (s : String) : Except String (List Nat) :=
  match b64DecodeGroups s.toList with
  | some bytes => .ok bytes
  | none => .error "illegal base64 data"

/-- strings.Trim of the surrounding double quotes of an ETag value. -/
def trimQuotes (s : String) : String :=
  let noLead := s.toList.dropWhile fun c => c = '"'
  String.mk ((noLead.reverse.dropWhile fun c => c = '"').reverse)

/-- The copy of the decoded hash into the fixed 16-byte MD5 checksum array:
at most 16 bytes are copied, the rest stay zero. -/
def copyMD5 (hash : List Nat) : List Nat :=
  hash.take 16 ++ List.replicate (16 - hash.length) 0

/-- getMD5Checksum from attachments.go: exact-key lookup of Etag, then ETag;
a missing header is a bad-response error; otherwise the first value is
unquoted and base64-decoded, a decode failure being wrapped as a
bad-response error, and the hash copied into the checksum in either case. -/
def getMD5Checksum (h : Header) : List Nat × Option KErr :=
  match
    (match headerIndex h "Etag" with
     | some vs => some vs
     | none => headerIndex h "ETag") with
  | none => (List.replicate 16 0, some ⟨.badResponse, "ETag header not found"⟩)
  | some vs =>
    match base64DecodeString (trimQuotes (vs.headD "")) with
    | .ok hash => (copyMD5 hash, none)
    | .error msg =>
      (copyMD5 [], some ⟨.badResponse, "failed to decode MD5 checksum: " ++ msg⟩)

/-- The Go return values of decodeAttachment: content type, checksum,
whether the open response body was handed back to the caller, and the error
component. -/
structure AttachmentDecode where
  cType : String
  md5sum : List Nat
  contentReturned : Bool
  err : Option KErr
deriving DecidableEq

/-- decodeAttachment from attachments.go: a missing Content-Type header is a
bad-response error returned without the body; otherwise the checksum is read
from the ETag header and the open response body is returned to the caller
together with any checksum error. -/
def decodeAttachment (resp : AttResponse) : AttachmentDecode :=
  match getContentType resp.headers with
  | (_, false) =>
    ⟨"", List.replicate 16 0, false,
      some ⟨.badResponse, "no Content-Type in response"⟩⟩
  | (ct, true) =>
    let r := getMD5Checksum resp.headers
    ⟨ct, r.1, true, r.2⟩

/-- The fate of the HTTP response body of one attachment call: no exchange
completed, body still open, or body drained/closed by the executor. -/
inductive BodyFate where
  | noBody
  | opened
  | closed
deriving DecidableEq

/-- Modelled from the spec: missingArg (util.go is not under src/), a
precondition failure reported as bad-request with no I/O attempted. -/
def missingArg (arg : String) : KErr :=
  ⟨.badRequest, "kivik: " ++ arg ++ " required"⟩

/-- fetchAttachment from attachments.go, the network abstracted as the wire
outcome of the one request it can issue.  Preconditions are checked before
any I/O; a transport failure means no body ever existed; ResponseError
(modelled from the spec, chttp.go not under src/) consumes and closes the
body when it classifies an error status, and leaves it open on success. -/
def fetchAttachment (method docID filename : String)
    (wire : Except String AttResponse) : Except KErr AttResponse × BodyFate :=
  if method = "" then (.error ⟨.internalError, "method required"⟩, .noBody)
  else if docID = "" then (.error (missingArg "docID"), .noBody)
  else if filename = "" then (.error (missingArg "filename"), .noBody)
  else
    match wire with
    | .error cause => (.error ⟨.network, cause⟩, .noBody)
    | .ok resp =>
      if resp.status < 400 then (.ok resp, .opened)
      else (.error ⟨classifyStatus resp.status, "HTTP error"⟩, .closed)

/-- db.GetAttachment from attachments.go: fetch, then decode; the second
component tracks the fate of the response body through the whole call.  The
decode stage never drains or closes the body. -/
def GetAttachment (docID filename : String)
    (wire : Except String AttResponse) : AttachmentDecode × BodyFate :=
  match fetchAttachment "GET" docID filename wire with
  | (.error e, fate) => (⟨"", List.replicate 16 0, false, some e⟩, fate)
  | (.ok resp, _) => (decodeAttachment resp, .opened)

end Couch

section Theorems

open Couch Chttp

/-- Claim C10: when the feed option equals eventsource, Changes returns a
bad-request (HTTP 400) error without issuing any HTTP request, while a feed
option of continuous selects the unbounded shape (empty item key and no
metadata accumulator) for the returned iterator. -/
theorem c10_changes_feed_options
    (dbName : String) (opts : List (String × String))
    (server : Request → Except String StreamResponse) :
    (opts.lookup "feed" = some "eventsource" →
      dbChanges dbName opts server =
        ([], .error ⟨400,
          "kivik: eventsource feed not supported, use \x27continuous\x27"⟩)) ∧
    (opts.lookup "feed" = some "continuous" →
      ∀ resp : StreamResponse,
        server ⟨"GET", dbName ++ "/_changes", opts⟩ = .ok resp →
        resp.status < 400 →
        dbChanges dbName opts server =
          ([⟨"GET", dbName ++ "/_changes", opts⟩],
            .ok (newChangesRows "" resp.body)) ∧
        (newChangesRows "" resp.body).iter.meta = none ∧
        (newChangesRows "" resp.body).iter.expectedKey = "") := by
  constructor
  · intro h
    simp [dbChanges, h]
  · intro h resp hresp hstatus
    refine ⟨?_, rfl, rfl⟩
    simp [dbChanges, h, optionsToParams, hresp, streamResponseError, hstatus]

/-- Witness for C10: an eventsource feed is rejected up front with a 400
kivik error and no request, and a continuous feed against a 200 response
yields the unbounded-shape iterator. -/
theorem c10_witness :
    dbChanges "db" [("feed", "eventsource")] (fun _ => .error "unreachable") =
      ([], .error ⟨400,
        "kivik: eventsource feed not supported, use \x27continuous\x27"⟩) ∧
    (dbChanges "db" [("feed", "continuous")] (fun _ => .ok ⟨200, []⟩) =
      ([⟨"GET", "db/_changes", [("feed", "continuous")]⟩],
        .ok (newChangesRows "" [])) ∧
      (newChangesRows "" []).iter.meta = none ∧
      (newChangesRows "" []).iter.expectedKey = "") :=
  ⟨(c10_changes_feed_options "db" [("feed", "eventsource")]
      (fun _ => .error "unreachable")).1 rfl,
    (c10_changes_feed_options "db" [("feed", "continuous")]
      (fun _ => .ok ⟨200, []⟩)).2 rfl ⟨200, []⟩ rfl (by decide)⟩

/-- Claim C6 (code bug evidence): every changesRows built by newChangesRows
leaves the embedded changesMeta pointer nil, so the LastSeq and Pending
accessors dereference a nil pointer instead of returning the documented
defaults, for the bounded ("results") and the unbounded ("") shape alike. -/
theorem c6_accessors_nil_dereference :
    (newChangesRows "results" []).LastSeq = .error .nilPointerDereference ∧
    (newChangesRows "results" []).Pending = .error .nilPointerDereference ∧
    (newChangesRows "" []).LastSeq = .error .nilPointerDereference ∧
    (newChangesRows "" []).Pending = .error .nilPointerDereference :=
  ⟨rfl, rfl, rfl, rfl⟩

/-- Counterexample for C5: the key "offset" is a non-item metadata key, yet
parseMeta rejects it with a bad-gateway kivik error instead of accumulating
it into the metadata. -/
theorem c5_counterexample :
    changesMeta.parseMeta {} "offset" (.num 0) =
      .error ⟨502, "Unexpected key: offset"⟩ := rfl

/-- Claim C5 as amended: the metadata keys the stream recognizes (last_seq
and pending) are accumulated whether they appear before or after the item
array, with identical final metadata in every order, while any other
metadata key is rejected with a bad-gateway error. -/
theorem c5_known_meta_keys_order_independent
    (v1 v2 : JSON) (s : String) (p : Int) (xs : List JSON)
    (h1 : decodeSequenceID v1 = .ok s) (h2 : decodePending v2 = .ok p) :
    runBounded "results"
      [("last_seq", v1), ("pending", v2), ("results", .arr xs)] {} =
      .ok (xs, ⟨s, p⟩) ∧
    runBounded "results"
      [("results", .arr xs), ("last_seq", v1), ("pending", v2)] {} =
      .ok (xs, ⟨s, p⟩) ∧
    runBounded "results"
      [("last_seq", v1), ("results", .arr xs), ("pending", v2)] {} =
      .ok (xs, ⟨s, p⟩) ∧
    (∀ (m : changesMeta) (k : String) (v : JSON),
      k ≠ "last_seq" → k ≠ "pending" →
      m.parseMeta k v = .error ⟨502, "Unexpected key: " ++ k⟩) := by
  refine ⟨?_, ?_, ?_, ?_⟩
  · simp [runBounded, changesMeta.parseMeta, Except.map, h1, h2]
  · simp [runBounded, changesMeta.parseMeta, Except.map, h1, h2]
  · simp [runBounded, changesMeta.parseMeta, Except.map, h1, h2]
  · intro m k v hk1 hk2
    unfold changesMeta.parseMeta
    split
    · exact absurd rfl hk1
    · exact absurd rfl hk2
    · rfl

/-- Witness for C5: a concrete bounded stream with last_seq "5-x" and
pending 3 accumulates the same final metadata with the metadata keys before
or after the one-item array. -/
theorem c5_witness :
    runBounded "results"
      [("last_seq", .str "5-x"), ("pending", .num 3),
        ("results", .arr [.obj [("id", .str "a")]])] {} =
      .ok ([.obj [("id", .str "a")]], ⟨"5-x", 3⟩) ∧
    runBounded "results"
      [("results", .arr [.obj [("id", .str "a")]]),
        ("last_seq", .str "5-x"), ("pending", .num 3)] {} =
      .ok ([.obj [("id", .str "a")]], ⟨"5-x", 3⟩) :=
  ⟨(c5_known_meta_keys_order_independent (.str "5-x") (.num 3) "5-x" 3
      [.obj [("id", .str "a")]] rfl rfl).1,
    (c5_known_meta_keys_order_independent (.str "5-x") (.num 3) "5-x" 3
      [.obj [("id", .str "a")]] rfl rfl).2.1⟩

/-- Claim C4: the error classifier follows the fixed table: transport
failure to network, 401 to unauthorized, 404 to not-found, 400 to
bad-request, any 5xx to server-error, and a malformed error body to
bad-response. -/
theorem c4_error_kind_table :
    (∀ cause : String, classify (.transportFailure cause) = some .network) ∧
    classify (.response 401 false) = some .unauthorized ∧
    classify (.response 404 false) = some .notFound ∧
    classify (.response 400 false) = some .badRequest ∧
    (∀ status : Nat, 500 ≤ status → status ≤ 599 →
      classify (.response status false) = some .serverError) ∧
    (∀ status : Nat, 400 ≤ status →
      classify (.response status true) = some .badResponse) := by
  refine ⟨fun _ => rfl, by decide, by decide, by decide, ?_, ?_⟩
  · intro status h1 h2
    have hlt : ¬ status < 400 := by omega
    have e1 : status ≠ 401 := by omega
    have e2 : status ≠ 404 := by omega
    have e3 : status ≠ 400 := by omega
    simp [classify, classifyStatus, hlt, e1, e2, e3, h1, h2]
  · intro status h1
    have hlt : ¬ status < 400 := by omega
    simp [classify, hlt]

/-- Witness for C4: the table at concrete outcomes: a transport failure, a
502 error body, and a 404 with a malformed body. -/
theorem c4_witness :
    classify (.transportFailure "net error") = some .network ∧
    classify (.response 502 false) = some .serverError ∧
    classify (.response 404 true) = some .badResponse :=
  ⟨c4_error_kind_table.1 "net error",
    c4_error_kind_table.2.2.2.2.1 502 (by decide) (by decide),
    c4_error_kind_table.2.2.2.2.2 404 (by decide)⟩

/-- Claim C9: a malformed JSON body where JSON is expected carries the
bad-response kind: the classifier reports a malformed error body as
bad-response, and a session login exchange whose response body is malformed
fails with a bad-response error carrying the parse message, never silently
succeeding. -/
theorem c9_malformed_body_bad_response :
    (∀ status : Nat, 400 ≤ status →
      classify (.response status true) = some .badResponse) ∧
    (∀ (u : String) (status : Nat) (tok : Option String) (msg : String),
      cookieAuthenticate u (.ok ⟨status, tok, .error msg⟩) =
        .error ⟨.badResponse, msg⟩) := by
  constructor
  · intro status h1
    have hlt : ¬ status < 400 := by omega
    simp [classify, hlt]
  · intro u status tok msg
    unfold cookieAuthenticate validateAuthResponse
    rcases h : classify (.response status (isMalformed (Except.error msg))) with _ | k <;>
      simp [h]

/-- Witness for C9: at status 404 the malformed error body classifies as
bad-response, and a login response whose body fails to parse yields a
bad-response error with the parse message. -/
theorem c9_witness :
    classify (.response 404 true) = some .badResponse ∧
    cookieAuthenticate "foo"
      (.ok ⟨200, none, .error "invalid character after object key"⟩) =
      .error ⟨.badResponse, "invalid character after object key"⟩ :=
  ⟨c9_malformed_body_bad_response.1 404 (by decide),
    c9_malformed_body_bad_response.2 "foo" 200 none
      "invalid character after object key"⟩

/-- Counterexample for C3: the session-token login response naming user
other while submitted as admin does yield a bad-response error, but its
message is the one pinned by the repository test — "auth response for
unexpected user" — not the message the claim states. -/
theorem c3_counterexample :
    cookieAuthenticate "admin"
      (.ok ⟨200, some "tok",
        .ok (.obj [("userCtx", .obj [("name", .str "other")])])⟩) =
      .error ⟨.badResponse, "auth response for unexpected user"⟩ ∧
    "auth response for unexpected user" ≠
      "authentication response names an unexpected user" :=
  ⟨rfl, by decide⟩

/-- Claim C3 as amended: whenever the login response of the session-token
strategy names a user different from the submitted username, Authenticate
fails with a bad-response error whose message is "auth response for
unexpected user". -/
theorem c3_mismatch_message
    (u : String) (status : Nat) (tok : Option String) (j : JSON)
    (hs : status < 400) (hname : userCtxName j ≠ u) :
    cookieAuthenticate u (.ok ⟨status, tok, .ok j⟩) =
      .error ⟨.badResponse, "auth response for unexpected user"⟩ := by
  unfold cookieAuthenticate validateAuthResponse
  simp [classify, isMalformed, hs, hname]

/-- Witness for C3 as amended: the concrete mismatch scenario of the spec,
user other returned for submitted admin. -/
theorem c3_witness :
    cookieAuthenticate "admin"
      (.ok ⟨200, some "tok",
        .ok (.obj [("userCtx", .obj [("name", .str "other")])])⟩) =
      .error ⟨.badResponse, "auth response for unexpected user"⟩ :=
  c3_mismatch_message "admin" 200 (some "tok")
    (.obj [("userCtx", .obj [("name", .str "other")])]) (by decide) (by decide)

/-- Claim C1: for both credential strategies, a second Authenticate on the
same connection without an intervening Logout fails with a conflict error
and leaves the whole connection state — in particular the token stored by
the first authentication — unchanged. -/
theorem c1_second_authenticate_conflicts
    (st0 : ClientState) (s1 s2 : Strategy)
    (w1 w2 : Except String SessionResponse)
    (h0 : st0.auther = none)
    (h1 : (clientAuth st0 s1 w1).1 = .ok ()) :
    clientAuth (clientAuth st0 s1 w1).2 s2 w2 =
      (.error ⟨.conflict, "auth already set; log out first"⟩,
        (clientAuth st0 s1 w1).2) := by
  unfold clientAuth at h1 ⊢
  rw [h0] at h1 ⊢
  rcases hr : runStrategy s1 w1 with e | cookies
  · simp [hr] at h1
  · simp [hr]

/-- Witness for C1: a successful session-token login stores the AuthSession
token, and a second Authenticate (here with the static-header strategy)
fails with the conflict error, the stored token untouched. -/
theorem c1_witness :
    clientAuth
      (clientAuth ⟨none, []⟩ (.cookie "foo" "bar")
        (.ok ⟨200, some "tok",
          .ok (.obj [("userCtx", .obj [("name", .str "foo")])])⟩)).2
      (.basic "foo" "bar") (.error "unreachable") =
      (.error ⟨.conflict, "auth already set; log out first"⟩,
        (clientAuth ⟨none, []⟩ (.cookie "foo" "bar")
          (.ok ⟨200, some "tok",
            .ok (.obj [("userCtx", .obj [("name", .str "foo")])])⟩)).2) ∧
    (clientAuth ⟨none, []⟩ (.cookie "foo" "bar")
      (.ok ⟨200, some "tok",
        .ok (.obj [("userCtx", .obj [("name", .str "foo")])])⟩)).2.jar =
      [("AuthSession", "tok")] :=
  ⟨c1_second_authenticate_conflicts ⟨none, []⟩ (.cookie "foo" "bar")
      (.basic "foo" "bar")
      (.ok ⟨200, some "tok",
        .ok (.obj [("userCtx", .obj [("name", .str "foo")])])⟩)
      (.error "unreachable") rfl rfl,
    rfl⟩

/-- After removing the AuthSession entries no AuthSession entry remains. -/
theorem lookup_filter_session (l : List (String × String)) :
    (l.filter fun c => c.1 ≠ "AuthSession").lookup "AuthSession" = none := by
  induction l with
  | nil => rfl
  | cons hd tl ih =>
    obtain ⟨k, v⟩ := hd
    by_cases h : k = "AuthSession"
    · subst h
      simp [List.filter_cons]
      intro a b hmem hne hh
      exact hne hh.symm
    · have hb : ("AuthSession" == k) = false :=
        beq_eq_false_iff_ne.mpr (Ne.symm h)
      simp [List.filter_cons, h, List.lookup, hb]
      intro a b hmem hne hh
      exact hne hh.symm

/-- Claim C8: Logout on a connection with no installed strategy fails with
an unauthorized error and changes nothing; with a strategy installed it
succeeds, removes the strategy, and clears the stored session token. -/
theorem c8_logout (st : ClientState) :
    (st.auther = none →
      clientLogout st = (.error ⟨.unauthorized, "not authenticated"⟩, st)) ∧
    (∀ s : Strategy, st.auther = some s →
      (clientLogout st).1 = .ok () ∧
      (clientLogout st).2.auther = none ∧
      (clientLogout st).2.jar.lookup "AuthSession" = none) := by
  constructor
  · intro h
    unfold clientLogout
    rw [h]
  · intro s h
    unfold clientLogout
    rw [h]
    exact ⟨rfl, rfl, lookup_filter_session st.jar⟩

/-- Witness for C8: a fresh connection rejects Logout as unauthorized; an
authenticated connection logs out, dropping the strategy and its stored
token. -/
theorem c8_witness :
    clientLogout ⟨none, []⟩ =
      (.error ⟨.unauthorized, "not authenticated"⟩, ⟨none, []⟩) ∧
    ((clientLogout ⟨some (.cookie "foo" "bar"), [("AuthSession", "tok")]⟩).1 =
        .ok () ∧
      (clientLogout
        ⟨some (.cookie "foo" "bar"), [("AuthSession", "tok")]⟩).2.auther =
        none ∧
      (clientLogout
        ⟨some (.cookie "foo" "bar"),
          [("AuthSession", "tok")]⟩).2.jar.lookup "AuthSession" = none) :=
  ⟨(c8_logout ⟨none, []⟩).1 rfl,
    (c8_logout ⟨some (.cookie "foo" "bar"), [("AuthSession", "tok")]⟩).2
      (.cookie "foo" "bar") rfl⟩

/-- Claim C7: the Cookie accessor of the session-token strategy is a pure
read of the connection state: it returns nothing exactly when there is no
cookie store, no origin, or no stored AuthSession cookie for the origin, and
returns the stored session cookie when one exists. -/
theorem c7_cookie_characterization (a : CookieAuth) :
    (a.Cookie = none ↔ ¬ hasStoredToken a) ∧
    (∀ (jar : List (String × List (String × String)))
      (dsn : String) (cookies : List (String × String)) (v : String),
      a.jar = some jar → a.dsn = some dsn →
      jar.lookup dsn = some cookies →
      cookies.lookup "AuthSession" = some v →
      a.Cookie = some ("AuthSession", v)) := by
  obtain ⟨j, d⟩ := a
  constructor
  · cases j with
    | none => simp [CookieAuth.Cookie, hasStoredToken]
    | some jar =>
      cases d with
      | none => simp [CookieAuth.Cookie, hasStoredToken]
      | some dsn =>
        rcases hl : jar.lookup dsn with _ | cookies
        · simp [CookieAuth.Cookie, hasStoredToken, hl]
        · rcases hc : cookies.lookup "AuthSession" with _ | v <;>
            simp [CookieAuth.Cookie, hasStoredToken, hl, hc]
  · intro jar dsn cookies v hj hd hl hc
    simp only at hj hd
    subst hj
    subst hd
    simp [CookieAuth.Cookie, hl, hc]

/-- Witness for C7: a store holding the AuthSession cookie foo for the
connection origin is found by the accessor. -/
theorem c7_witness :
    CookieAuth.Cookie
      ⟨some [("http://example.com/",
        [("AuthSession", "foo"), ("other", "bar")])],
        some "http://example.com/"⟩ = some ("AuthSession", "foo") :=
  (c7_cookie_characterization
    ⟨some [("http://example.com/",
      [("AuthSession", "foo"), ("other", "bar")])],
      some "http://example.com/"⟩).2
    [("http://example.com/", [("AuthSession", "foo"), ("other", "bar")])]
    "http://example.com/" [("AuthSession", "foo"), ("other", "bar")] "foo"
    rfl rfl rfl rfl

/-- Counterexample for C2: a 200 attachment response with no Content-Type
header makes GetAttachment return an error while the response body is still
open — the executor has neither drained nor closed it, and the caller is not
even handed the body to clean up. -/
theorem c2_counterexample :
    GetAttachment "foo" "bar" (.ok ⟨200, []⟩) =
      (⟨"", List.replicate 16 0, false,
        some ⟨.badResponse, "no Content-Type in response"⟩⟩, .opened) ∧
    GetAttachment "foo" "bar"
      (.ok ⟨200, [("Content-Type", ["text/plain"])]⟩) =
      (⟨"text/plain", List.replicate 16 0, true,
        some ⟨.badResponse, "ETag header not found"⟩⟩, .opened) :=
  ⟨rfl, rfl⟩

/-- Claim C2 as amended: on every error produced by the executor stage of an
attachment fetch — precondition failure, transport failure, or HTTP error
status — the response body has already been drained or closed (or never
existed); only the attachment-decoding stage of GetAttachment can return an
error with the body still open. -/
theorem c2_executor_errors_close_body
    (method docID filename : String) (wire : Except String AttResponse)
    (e : Couch.KErr)
    (h : (fetchAttachment method docID filename wire).1 = .error e) :
    (fetchAttachment method docID filename wire).2 ≠ .opened := by
  unfold fetchAttachment at h ⊢
  split_ifs at h ⊢ <;> try simp
  rcases wire with cause | resp
  · simp
  · rcases Nat.lt_or_ge resp.status 400 with hlt | hge
    · simp [hlt] at h
    · have : ¬ resp.status < 400 := by omega
      simp [this]

/-- Witness for C2 as amended: a 404 attachment fetch returns a not-found
error with the body closed by the executor. -/
theorem c2_witness :
    (fetchAttachment "GET" "foo" "bar" (.ok ⟨404, []⟩)).1 =
      .error ⟨.notFound, "HTTP error"⟩ ∧
    (fetchAttachment "GET" "foo" "bar" (.ok ⟨404, []⟩)).2 ≠ .opened :=
  ⟨rfl, c2_executor_errors_close_body "GET" "foo" "bar" (.ok ⟨404, []⟩)
    ⟨.notFound, "HTTP error"⟩ rfl⟩

end Theorems
